import Mathlib

/-!
Verification of the inline autocomplete core of the markdown editor
(`src/renderer/autocomplete/triggers.ts`, `useAutocomplete.ts`,
`data/emoji.ts`, `data/markdownSyntax.ts`, and the heading-id generator in
`src/renderer/MarkdownRenderer.ts`).

JavaScript strings are sequences of UTF-16 code units; string indices,
`length`, `slice`, `lastIndexOf` all operate on code units.  We embed a JS
string as a `List Nat` of its code units, and translate each source
function on top of that representation.
-/

set_option maxRecDepth 8000

namespace MdAuto

/-- A JavaScript string: its sequence of UTF-16 code units. -/
abbrev JSStr := List Nat

/-- UTF-16 encoding of a Lean string literal (surrogate pairs for code
points above U+FFFF), producing the code-unit sequence the JavaScript
source operates on. -/
def utf16 (s : String) : JSStr :=
  (s.data.map fun c =>
    if c.toNat < 0x10000 then [c.toNat]
    else [0xD800 + (c.toNat - 0x10000) / 0x400, 0xDC00 + (c.toNat - 0x10000) % 0x400]).flatten

/-- The character class of the JS regex `\s` (whitespace), on code units. -/
def isSpaceCU (c : Nat) : Bool :=
  c == 0x09 || c == 0x0A || c == 0x0B || c == 0x0C || c == 0x0D || c == 0x20 ||
  c == 0xA0 || c == 0x1680 || (0x2000 ≤ c && c ≤ 0x200A) || c == 0x2028 ||
  c == 0x2029 || c == 0x202F || c == 0x205F || c == 0x3000 || c == 0xFEFF

/-- JS line terminators: the characters `.` does not match and the
multiline anchors `^`/`$` break at. -/
def isLineTermCU (c : Nat) : Bool :=
  c == 0x0A || c == 0x0D || c == 0x2028 || c == 0x2029

/-- The character class of the JS regex `\w`, on code units. -/
def isWordCU (c : Nat) : Bool :=
  (0x30 ≤ c && c ≤ 0x39) || (0x41 ≤ c && c ≤ 0x5A) || c == 0x5F ||
  (0x61 ≤ c && c ≤ 0x7A)

/-- The CJK range `一-龥` used by the two heading-id regexes. -/
def isCJKCU (c : Nat) : Bool :=
  0x4E00 ≤ c && c ≤ 0x9FA5

/-- `String.prototype.toLowerCase`, restricted to the ASCII letters; the
source's Unicode lowercasing agrees with this on every code point used in
this development (ASCII, CJK ideographs, punctuation, emoji). -/
def jsToLower (c : Nat) : Nat :=
  if 0x41 ≤ c && c ≤ 0x5A then c + 32 else c

/-- Index of the last occurrence of the code unit `c` (JS
`lastIndexOf` restricted to a single-character needle), `none` for JS `-1`. -/
def lastIdxOf (c : Nat) : JSStr → Option Nat
  | [] => none
  | a :: t =>
    match lastIdxOf c t with
    | some i => some (i + 1)
    | none => if a == c then some 0 else none

/-- Length of the maximal run of code units satisfying `p` at the head. -/
def countWhile (p : Nat → Bool) : JSStr → Nat
  | [] => 0
  | a :: t => if p a then countWhile p t + 1 else 0

/-- JS `String.prototype.includes` (substring containment). -/
def jsIncludes (s sub : JSStr) : Bool :=
  s.tails.any fun t => sub.isPrefixOf t

/-! ## Trigger configuration (`triggers.ts`) -/

inductive TriggerType
  | markdown | emoji | link | code
deriving DecidableEq, Repr

inductive RequirePosition
  | lineStart | wordStart | any
deriving DecidableEq, Repr

structure Trigger where
  char : Nat
  type : TriggerType
  requirePosition : RequirePosition
  minChars : Option Nat := none
deriving DecidableEq, Repr

/-- The fixed trigger table (`triggers` in `triggers.ts`), in declaration
order: the five markdown line-start characters, the backtick code trigger,
the colon emoji trigger, and the two link triggers. -/
def triggers : List Trigger :=
  [ ⟨0x23, .markdown, .lineStart, none⟩,  -- '#'
    ⟨0x2D, .markdown, .lineStart, none⟩,  -- '-'
    ⟨0x2A, .markdown, .lineStart, none⟩,  -- '*'
    ⟨0x3E, .markdown, .lineStart, none⟩,  -- '>'
    ⟨0x7C, .markdown, .lineStart, none⟩,  -- '|'
    ⟨0x60, .code, .lineStart, none⟩,      -- '`'
    ⟨0x3A, .emoji, .wordStart, some 1⟩,   -- ':'
    ⟨0x5B, .link, .any, none⟩,            -- '['
    ⟨0x21, .link, .any, none⟩ ]           -- '!'

structure TriggerResult where
  trigger : Trigger
  query : JSStr
  startPosition : Nat
deriving DecidableEq, Repr

/-- Start of the current line: one past the last `\n` at an index
below `pos` (`text.lastIndexOf('\n', cursorPosition - 1) + 1`). -/
def lineStartOf (text : JSStr) (pos : Nat) : Nat :=
  match lastIdxOf 0x0A (text.take pos) with
  | some i => i + 1
  | none => 0

/-- `text.slice(lineStart, cursorPosition)`: the current line up to the
cursor. -/
def lineSoFar (text : JSStr) (pos : Nat) : JSStr :=
  (text.take pos).drop (lineStartOf text pos)

/-- The emoji eligibility test of `checkTrigger`: the line so far has a
last colon whose suffix is non-empty and free of whitespace. -/
def emojiEligible (before : JSStr) : Bool :=
  match lastIdxOf 0x3A before with
  | none => false
  | some colonIndex =>
    let textAfterColon := before.drop (colonIndex + 1)
    !textAfterColon.any isSpaceCU && decide (1 ≤ textAfterColon.length)

/-- The emoji branch of `checkTrigger` (the `colonIndex !== -1` block). -/
def emojiCheck (lineStart : Nat) (before : JSStr) : Option TriggerResult :=
  match lastIdxOf 0x3A before with
  | none => none
  | some colonIndex =>
    let textAfterColon := before.drop (colonIndex + 1)
    if !textAfterColon.any isSpaceCU && decide (1 ≤ textAfterColon.length) then
      match triggers.find? (fun t => t.type == .emoji) with
      | some t => some ⟨t, textAfterColon, lineStart + colonIndex⟩
      | none => none
    else none

/-- The fenced-code branch of `checkTrigger` (the `startsWith('```')`
block). -/
def codeCheck (lineStart : Nat) (before : JSStr) : Option TriggerResult :=
  if [0x60, 0x60, 0x60].isPrefixOf before then
    match triggers.find? (fun t => t.type == .code) with
    | none => none
    | some t =>
      let query := before.drop 3
      if query.contains 0x0A then none
      else some ⟨t, query, lineStart⟩
  else none

/-- The heading pattern `/^(#{1,6})\s*$/` of the `#` line-start branch:
on success returns the captured run of `#` characters. -/
def headingPattern (before : JSStr) : Option JSStr :=
  let m := countWhile (fun c => c == 0x23) before
  if (1 ≤ m ∧ m ≤ 6) ∧ (before.drop m).all isSpaceCU then some (before.take m)
  else none

/-- The `for (const trigger of triggers)` line-start loop of
`checkTrigger`; a trigger whose inner condition fails falls through to the
next table entry. -/
def lineStartLoop (lineStart : Nat) (before : JSStr) : List Trigger → Option TriggerResult
  | [] => none
  | t :: ts =>
    if t.requirePosition == .lineStart && [t.char].isPrefixOf before then
      if t.char == 0x23 then
        match headingPattern before with
        | some q => some ⟨t, q, lineStart⟩
        | none => lineStartLoop lineStart before ts
      else if before == [t.char] then some ⟨t, [], lineStart⟩
      else lineStartLoop lineStart before ts
    else lineStartLoop lineStart before ts

/-- The link branch of `checkTrigger` (last character `[`, or `!` as the
sole character of the line so far). -/
def linkCheck (cursorPosition : Nat) (before : JSStr) : Option TriggerResult :=
  match before.getLast? with
  | none => none
  | some lastChar =>
    match triggers.find? (fun t => t.type == .link && t.char == lastChar) with
    | none => none
    | some t =>
      if lastChar == 0x21 && before.length == 1 then some ⟨t, [], cursorPosition - 1⟩
      else if lastChar == 0x5B then some ⟨t, [], cursorPosition - 1⟩
      else none

/-- `checkTrigger(text, cursorPosition)` from `triggers.ts`: emoji check,
then fenced-code check, then the line-start loop, then the link check;
cursor offset 0 never matches. -/
def checkTrigger (text : JSStr) (cursorPosition : Nat) : Option TriggerResult :=
  if cursorPosition = 0 then none
  else
    let lineStart := lineStartOf text cursorPosition
    let textBeforeCursor := lineSoFar text cursorPosition
    (emojiCheck lineStart textBeforeCursor).orElse fun _ =>
    (codeCheck lineStart textBeforeCursor).orElse fun _ =>
    (lineStartLoop lineStart textBeforeCursor triggers).orElse fun _ =>
    linkCheck cursorPosition textBeforeCursor

/-! ## Heading extraction (`extractHeadings` in `triggers.ts`) and the
rendered heading id (`generateHeadingId` in `MarkdownRenderer.ts`) -/

structure HeadingEntry where
  level : Nat
  text : JSStr
  anchor : JSStr
deriving DecidableEq, Repr

/-- JS `String.prototype.trim`: strip whitespace from both ends. -/
def jsTrim (s : JSStr) : JSStr :=
  ((s.dropWhile isSpaceCU).reverse.dropWhile isSpaceCU).reverse

/-- Helper for `replaceRuns`: the flag records whether the previous code
unit was inside a replaced run (in which case no further `dash` is
emitted until the run ends). -/
def replaceRunsAux (keep : Nat → Bool) (dash : Nat) : Bool → JSStr → JSStr
  | _, [] => []
  | inRun, c :: rest =>
    if keep c then c :: replaceRunsAux keep dash false rest
    else if inRun then replaceRunsAux keep dash true rest
    else dash :: replaceRunsAux keep dash true rest

/-- `replace(/[^KEEP]+/g, dash)`: each maximal run of code units outside
the kept class becomes the single code unit `dash`. -/
def replaceRuns (keep : Nat → Bool) (dash : Nat) (l : JSStr) : JSStr :=
  replaceRunsAux keep dash false l

/-- The anchor computed by `extractHeadings`: lower-case, delete the code
units outside `\w`, CJK, `\s` and `-`, then collapse each whitespace run
to a single hyphen. -/
def extractAnchor (text : JSStr) : JSStr :=
  let lowered := text.map jsToLower
  let cleaned := lowered.filter fun c =>
    isWordCU c || isCJKCU c || isSpaceCU c || c == 0x2D
  replaceRuns (fun c => !isSpaceCU c) 0x2D cleaned

/-- `replace(/^-|-$/g, '')`: remove one leading and one trailing hyphen. -/
def stripEdgeDashes (s : JSStr) : JSStr :=
  let s1 := match s with
    | d :: t => if d == 0x2D then t else s
    | [] => []
  if s1.getLast? == some 0x2D then s1.dropLast else s1

/-- `generateHeadingId(text, index)` from `MarkdownRenderer.ts`:
lower-case, collapse each run outside `\w`/CJK to a single hyphen, strip
edge hyphens, then append `-{index}`. -/
def generateHeadingId (text : JSStr) (index : Nat) : JSStr :=
  let baseId := stripEdgeDashes
    (replaceRuns (fun c => isWordCU c || isCJKCU c) 0x2D (text.map jsToLower))
  baseId ++ 0x2D :: utf16 (toString index)

/-- Backtracking split of the whitespace run for `\s+(.+)`: the largest
`j ≤ w` such that the code unit at offset `j` exists and is matched by
`.` (is not a line terminator). -/
def findSplit (after : JSStr) : Nat → Option Nat
  | 0 => none
  | j + 1 =>
    match (after.drop (j + 1)).head? with
    | some c => if isLineTermCU c then findSplit after j else some (j + 1)
    | none => findSplit after j

/-- Attempt to match `(#{1,6})\s+(.+)$` at position `p` of `s` (which the
caller has checked to be a line start).  Returns
`(match end, level, second capture)`.  Greedy `#{1,6}` with backtracking
succeeds only when the full `#` run has length 1–6; greedy `\s+`/`.+`
with backtracking is realised by `findSplit`. -/
def matchHeadingAt (s : JSStr) (p : Nat) : Option (Nat × Nat × JSStr) :=
  let rest := s.drop p
  let m := countWhile (fun c => c == 0x23) rest
  if 1 ≤ m ∧ m ≤ 6 then
    let after := rest.drop m
    let w := countWhile isSpaceCU after
    if w = 0 then none
    else
      match findSplit after w with
      | some j =>
        let tail := after.drop j
        let t := countWhile (fun c => !isLineTermCU c) tail
        some (p + m + j + t, m, tail.take t)
      | none => none
  else none

/-- Whether `p` is a position where the multiline `^` matches. -/
def isLineStartPos (s : JSStr) (p : Nat) : Bool :=
  p == 0 ||
    match (s.drop (p - 1)).head? with
    | some c => isLineTermCU c
    | none => false

/-- Scan forward from position `p` for the first line start where the
heading pattern matches (one `exec` call of the sticky loop). -/
def findHeadingFrom (s : JSStr) : Nat → Nat → Option (Nat × Nat × JSStr)
  | 0, _ => none
  | fuel + 1, p =>
    if p > s.length then none
    else if isLineStartPos s p then
      match matchHeadingAt s p with
      | some r => some r
      | none => findHeadingFrom s fuel (p + 1)
    else findHeadingFrom s fuel (p + 1)

/-- The `while ((match = headingRegex.exec(content)) !== null)` loop:
repeatedly find the next match, resuming after the end of the previous
one.  Every match consumes at least three code units, so
`s.length + 1` rounds of fuel suffice. -/
def execHeadingLoop (s : JSStr) : Nat → Nat → List (Nat × JSStr)
  | 0, _ => []
  | fuel + 1, i =>
    match findHeadingFrom s (s.length + 1) i with
    | some (endPos, level, raw) => (level, raw) :: execHeadingLoop s fuel endPos
    | none => []

/-- `extractHeadings(content)` from `triggers.ts`: every match of
`/^(#{1,6})\s+(.+)$/gm`, with the captured text trimmed and the anchor
computed by `extractAnchor`. -/
def extractHeadings (content : JSStr) : List HeadingEntry :=
  (execHeadingLoop content (content.length + 1) 0).map fun lr =>
    let text := jsTrim lr.2
    ⟨lr.1, text, extractAnchor text⟩

/-! ## Markdown syntax tables (`data/markdownSyntax.ts`)

The source names `headingSyntax`, `listSyntax`, … are rendered here with
an `Items` suffix (`headingSyntaxItems`, …). -/

inductive SyntaxCategory
  | heading | list | code | quote | link | format | table | divider
deriving DecidableEq, Repr

structure MarkdownSyntaxItem where
  label : JSStr
  value : JSStr
  description : JSStr
  category : SyntaxCategory
deriving DecidableEq, Repr

def headingSyntaxItems : List MarkdownSyntaxItem :=
  [ ⟨utf16 "# 一级标题", utf16 "# ", utf16 "最大的标题", .heading⟩,
    ⟨utf16 "## 二级标题", utf16 "## ", utf16 "次级标题", .heading⟩,
    ⟨utf16 "### 三级标题", utf16 "### ", utf16 "三级标题", .heading⟩,
    ⟨utf16 "#### 四级标题", utf16 "#### ", utf16 "四级标题", .heading⟩,
    ⟨utf16 "##### 五级标题", utf16 "##### ", utf16 "五级标题", .heading⟩,
    ⟨utf16 "###### 六级标题", utf16 "###### ", utf16 "最小的标题", .heading⟩ ]

def listSyntaxItems : List MarkdownSyntaxItem :=
  [ ⟨utf16 "- 无序列表", utf16 "- ", utf16 "无序列表项", .list⟩,
    ⟨utf16 "* 无序列表", utf16 "* ", utf16 "无序列表项（星号）", .list⟩,
    ⟨utf16 "1. 有序列表", utf16 "1. ", utf16 "有序列表项", .list⟩,
    ⟨utf16 "- [ ] 任务列表", utf16 "- [ ] ", utf16 "未完成的任务", .list⟩,
    ⟨utf16 "- [x] 已完成任务", utf16 "- [x] ", utf16 "已完成的任务", .list⟩ ]

def codeLanguages : List JSStr :=
  [ utf16 "javascript", utf16 "typescript", utf16 "python", utf16 "go",
    utf16 "rust", utf16 "java", utf16 "c", utf16 "cpp", utf16 "csharp",
    utf16 "json", utf16 "yaml", utf16 "html", utf16 "css", utf16 "scss",
    utf16 "sql", utf16 "bash", utf16 "shell", utf16 "markdown", utf16 "xml",
    utf16 "ruby", utf16 "php", utf16 "swift", utf16 "kotlin", utf16 "scala",
    utf16 "r", utf16 "dockerfile", utf16 "graphql", utf16 "vue",
    utf16 "react", utf16 "tsx", utf16 "jsx" ]

/-- `codeSyntax`: one entry per language plus the generic fence that
`unshift` puts first. -/
def codeSyntaxItems : List MarkdownSyntaxItem :=
  ⟨utf16 "```代码块", utf16 "```\n\n```", utf16 "通用代码块", .code⟩ ::
    codeLanguages.map fun lang =>
      ⟨utf16 "```" ++ lang, utf16 "```" ++ lang ++ utf16 "\n\n```",
       lang ++ utf16 " 代码块", .code⟩

def quoteSyntaxItems : List MarkdownSyntaxItem :=
  [ ⟨utf16 "> 引用", utf16 "> ", utf16 "块引用", .quote⟩,
    ⟨utf16 ">> 嵌套引用", utf16 ">> ", utf16 "嵌套块引用", .quote⟩ ]

def linkSyntaxItems : List MarkdownSyntaxItem :=
  [ ⟨utf16 "[链接](url)", utf16 "[](url)", utf16 "超链接", .link⟩,
    ⟨utf16 "![图片](url)", utf16 "![](url)", utf16 "图片", .link⟩,
    ⟨utf16 "[链接][ref]", utf16 "[][ref]", utf16 "引用式链接", .link⟩ ]

def tableSyntaxItems : List MarkdownSyntaxItem :=
  [ ⟨utf16 "| 表格 |",
     utf16 "| 列1 | 列2 | 列3 |\n| --- | --- | --- |\n| 内容 | 内容 | 内容 |",
     utf16 "创建表格", .table⟩ ]

def formatSyntaxItems : List MarkdownSyntaxItem :=
  [ ⟨utf16 "**粗体**", utf16 "****", utf16 "粗体文本", .format⟩,
    ⟨utf16 "*斜体*", utf16 "**", utf16 "斜体文本", .format⟩,
    ⟨utf16 "~~删除线~~", utf16 "~~~~", utf16 "删除线文本", .format⟩,
    ⟨utf16 "`行内代码`", utf16 "``", utf16 "行内代码", .format⟩ ]

def dividerSyntaxItems : List MarkdownSyntaxItem :=
  [ ⟨utf16 "--- 分割线", utf16 "---", utf16 "水平分割线", .divider⟩,
    ⟨utf16 "*** 分割线", utf16 "***", utf16 "水平分割线（星号）", .divider⟩ ]

def allMarkdownSyntaxItems : List MarkdownSyntaxItem :=
  headingSyntaxItems ++ listSyntaxItems ++ quoteSyntaxItems ++
    dividerSyntaxItems ++ tableSyntaxItems

/-- `getMarkdownSyntaxByTrigger(trigger)`: the fixed per-trigger-character
switch of `data/markdownSyntax.ts`. -/
def getMarkdownSyntaxByTrigger (trigger : JSStr) : List MarkdownSyntaxItem :=
  if trigger == utf16 "#" then headingSyntaxItems
  else if trigger == utf16 "-" then
    listSyntaxItems.filter fun s => [0x2D].isPrefixOf s.value
  else if trigger == utf16 "*" then
    (listSyntaxItems.filter fun s => [0x2A].isPrefixOf s.value) ++
      formatSyntaxItems.filter fun s => [0x2A].isPrefixOf s.value
  else if trigger == utf16 ">" then quoteSyntaxItems
  else if trigger == utf16 "`" then
    (formatSyntaxItems.filter fun s => [0x60].isPrefixOf s.value) ++ codeSyntaxItems
  else if trigger == utf16 "[" then
    linkSyntaxItems.filter fun s => [0x5B].isPrefixOf s.value
  else if trigger == utf16 "!" then
    linkSyntaxItems.filter fun s => [0x21].isPrefixOf s.value
  else if trigger == utf16 "|" then tableSyntaxItems
  else allMarkdownSyntaxItems

/-! ## Emoji table (`data/emoji.ts`) -/

structure EmojiItem where
  shortcode : JSStr
  emoji : JSStr
  description : JSStr
  keywords : List JSStr
deriving DecidableEq, Repr

/-- The emoji table is split into sub-lists purely to keep elaboration cheap; `emojiData` is their concatenation, in source order. -/

def emojiData1 : List EmojiItem :=
  [ ⟨utf16 "smile", utf16 "😄", utf16 "笑脸", [utf16 "happy", utf16 "joy", utf16 "laugh"]⟩,
    ⟨utf16 "grinning", utf16 "😀", utf16 "咧嘴笑", [utf16 "happy", utf16 "smile"]⟩,
    ⟨utf16 "joy", utf16 "😂", utf16 "笑哭", [utf16 "laugh", utf16 "cry", utf16 "happy"]⟩,
    ⟨utf16 "rofl", utf16 "🤣", utf16 "笑翻了", [utf16 "laugh", utf16 "rolling"]⟩,
    ⟨utf16 "wink", utf16 "😉", utf16 "眨眼", [utf16 "blink", utf16 "flirt"]⟩,
    ⟨utf16 "blush", utf16 "😊", utf16 "害羞", [utf16 "shy", utf16 "happy"]⟩,
    ⟨utf16 "innocent", utf16 "😇", utf16 "天使", [utf16 "angel", utf16 "halo"]⟩,
    ⟨utf16 "heart_eyes", utf16 "😍", utf16 "花痴", [utf16 "love", utf16 "crush"]⟩,
    ⟨utf16 "kissing_heart", utf16 "😘", utf16 "飞吻", [utf16 "kiss", utf16 "love"]⟩,
    ⟨utf16 "thinking", utf16 "🤔", utf16 "思考", [utf16 "think", utf16 "hmm"]⟩,
    ⟨utf16 "neutral_face", utf16 "😐", utf16 "面无表情", [utf16 "meh", utf16 "blank"]⟩,
    ⟨utf16 "expressionless", utf16 "😑", utf16 "无语", [utf16 "blank", utf16 "meh"]⟩,
    ⟨utf16 "unamused", utf16 "😒", utf16 "不高兴", [utf16 "unhappy", utf16 "side eye"]⟩,
    ⟨utf16 "roll_eyes", utf16 "🙄", utf16 "翻白眼", [utf16 "whatever", utf16 "bored"]⟩,
    ⟨utf16 "grimacing", utf16 "😬", utf16 "尴尬", [utf16 "awkward", utf16 "nervous"]⟩,
    ⟨utf16 "relieved", utf16 "😌", utf16 "如释重负", [utf16 "relief", utf16 "calm"]⟩,
    ⟨utf16 "pensive", utf16 "😔", utf16 "沉思", [utf16 "sad", utf16 "thoughtful"]⟩,
    ⟨utf16 "sleepy", utf16 "😪", utf16 "困", [utf16 "tired", utf16 "sleep"]⟩,
    ⟨utf16 "sleeping", utf16 "😴", utf16 "睡觉", [utf16 "zzz", utf16 "tired"]⟩,
    ⟨utf16 "drool", utf16 "🤤", utf16 "流口水", [utf16 "yummy", utf16 "hungry"]⟩ ]


def emojiData2 : List EmojiItem :=
  [ ⟨utf16 "yum", utf16 "😋", utf16 "美味", [utf16 "delicious", utf16 "tasty"]⟩,
    ⟨utf16 "mask", utf16 "😷", utf16 "口罩", [utf16 "sick", utf16 "covid"]⟩,
    ⟨utf16 "sunglasses", utf16 "😎", utf16 "墨镜", [utf16 "cool", utf16 "awesome"]⟩,
    ⟨utf16 "nerd", utf16 "🤓", utf16 "书呆子", [utf16 "geek", utf16 "smart"]⟩,
    ⟨utf16 "confused", utf16 "😕", utf16 "困惑", [utf16 "puzzled", utf16 "unsure"]⟩,
    ⟨utf16 "worried", utf16 "😟", utf16 "担心", [utf16 "anxious", utf16 "nervous"]⟩,
    ⟨utf16 "cry", utf16 "😢", utf16 "哭", [utf16 "sad", utf16 "tear"]⟩,
    ⟨utf16 "sob", utf16 "😭", utf16 "大哭", [utf16 "crying", utf16 "sad"]⟩,
    ⟨utf16 "angry", utf16 "😠", utf16 "生气", [utf16 "mad", utf16 "upset"]⟩,
    ⟨utf16 "rage", utf16 "😡", utf16 "愤怒", [utf16 "angry", utf16 "furious"]⟩,
    ⟨utf16 "triumph", utf16 "😤", utf16 "哼", [utf16 "proud", utf16 "huffing"]⟩,
    ⟨utf16 "skull", utf16 "💀", utf16 "骷髅", [utf16 "dead", utf16 "death"]⟩,
    ⟨utf16 "poop", utf16 "💩", utf16 "便便", [utf16 "shit", utf16 "crap"]⟩,
    ⟨utf16 "clown", utf16 "🤡", utf16 "小丑", [utf16 "joker", utf16 "circus"]⟩,
    ⟨utf16 "ghost", utf16 "👻", utf16 "幽灵", [utf16 "spooky", utf16 "halloween"]⟩,
    ⟨utf16 "alien", utf16 "👽", utf16 "外星人", [utf16 "ufo", utf16 "space"]⟩,
    ⟨utf16 "robot", utf16 "🤖", utf16 "机器人", [utf16 "bot", utf16 "ai"]⟩,
    ⟨utf16 "thumbsup", utf16 "👍", utf16 "点赞", [utf16 "like", utf16 "good", utf16 "ok", utf16 "+1"]⟩,
    ⟨utf16 "thumbsdown", utf16 "👎", utf16 "踩", [utf16 "dislike", utf16 "bad", utf16 "-1"]⟩,
    ⟨utf16 "clap", utf16 "👏", utf16 "鼓掌", [utf16 "applause", utf16 "bravo"]⟩ ]


def emojiData3 : List EmojiItem :=
  [ ⟨utf16 "wave", utf16 "👋", utf16 "挥手", [utf16 "hello", utf16 "bye", utf16 "hi"]⟩,
    ⟨utf16 "ok_hand", utf16 "👌", utf16 "OK", [utf16 "perfect", utf16 "nice"]⟩,
    ⟨utf16 "v", utf16 "✌️", utf16 "耶", [utf16 "peace", utf16 "victory"]⟩,
    ⟨utf16 "crossed_fingers", utf16 "🤞", utf16 "祈祷", [utf16 "luck", utf16 "hope"]⟩,
    ⟨utf16 "point_up", utf16 "☝️", utf16 "指向上", [utf16 "one", utf16 "up"]⟩,
    ⟨utf16 "point_down", utf16 "👇", utf16 "指向下", [utf16 "down", utf16 "below"]⟩,
    ⟨utf16 "point_left", utf16 "👈", utf16 "指向左", [utf16 "left"]⟩,
    ⟨utf16 "point_right", utf16 "👉", utf16 "指向右", [utf16 "right"]⟩,
    ⟨utf16 "punch", utf16 "👊", utf16 "拳头", [utf16 "fist", utf16 "bump"]⟩,
    ⟨utf16 "fist", utf16 "✊", utf16 "握拳", [utf16 "power", utf16 "fight"]⟩,
    ⟨utf16 "pray", utf16 "🙏", utf16 "祈祷/感谢", [utf16 "thanks", utf16 "please", utf16 "namaste"]⟩,
    ⟨utf16 "handshake", utf16 "🤝", utf16 "握手", [utf16 "deal", utf16 "agreement"]⟩,
    ⟨utf16 "muscle", utf16 "💪", utf16 "肌肉", [utf16 "strong", utf16 "power", utf16 "flex"]⟩,
    ⟨utf16 "writing_hand", utf16 "✍️", utf16 "写字", [utf16 "write", utf16 "pen"]⟩,
    ⟨utf16 "heart", utf16 "❤️", utf16 "红心", [utf16 "love", utf16 "red"]⟩,
    ⟨utf16 "orange_heart", utf16 "🧡", utf16 "橙心", [utf16 "love", utf16 "orange"]⟩,
    ⟨utf16 "yellow_heart", utf16 "💛", utf16 "黄心", [utf16 "love", utf16 "yellow"]⟩,
    ⟨utf16 "green_heart", utf16 "💚", utf16 "绿心", [utf16 "love", utf16 "green"]⟩,
    ⟨utf16 "blue_heart", utf16 "💙", utf16 "蓝心", [utf16 "love", utf16 "blue"]⟩,
    ⟨utf16 "purple_heart", utf16 "💜", utf16 "紫心", [utf16 "love", utf16 "purple"]⟩ ]


def emojiData4 : List EmojiItem :=
  [ ⟨utf16 "black_heart", utf16 "🖤", utf16 "黑心", [utf16 "love", utf16 "black"]⟩,
    ⟨utf16 "white_heart", utf16 "🤍", utf16 "白心", [utf16 "love", utf16 "white"]⟩,
    ⟨utf16 "broken_heart", utf16 "💔", utf16 "心碎", [utf16 "sad", utf16 "breakup"]⟩,
    ⟨utf16 "sparkling_heart", utf16 "💖", utf16 "闪亮的心", [utf16 "love", utf16 "sparkle"]⟩,
    ⟨utf16 "fire", utf16 "🔥", utf16 "火", [utf16 "hot", utf16 "lit", utf16 "flame"]⟩,
    ⟨utf16 "star", utf16 "⭐", utf16 "星星", [utf16 "favorite", utf16 "rating"]⟩,
    ⟨utf16 "sparkles", utf16 "✨", utf16 "闪闪发光", [utf16 "shine", utf16 "magic"]⟩,
    ⟨utf16 "zap", utf16 "⚡", utf16 "闪电", [utf16 "lightning", utf16 "fast"]⟩,
    ⟨utf16 "sun", utf16 "☀️", utf16 "太阳", [utf16 "sunny", utf16 "bright"]⟩,
    ⟨utf16 "moon", utf16 "🌙", utf16 "月亮", [utf16 "night", utf16 "sleep"]⟩,
    ⟨utf16 "cloud", utf16 "☁️", utf16 "云", [utf16 "weather", utf16 "sky"]⟩,
    ⟨utf16 "rainbow", utf16 "🌈", utf16 "彩虹", [utf16 "colorful", utf16 "pride"]⟩,
    ⟨utf16 "snowflake", utf16 "❄️", utf16 "雪花", [utf16 "cold", utf16 "winter"]⟩,
    ⟨utf16 "droplet", utf16 "💧", utf16 "水滴", [utf16 "water", utf16 "tear"]⟩,
    ⟨utf16 "dog", utf16 "🐕", utf16 "狗", [utf16 "puppy", utf16 "pet"]⟩,
    ⟨utf16 "cat", utf16 "🐈", utf16 "猫", [utf16 "kitty", utf16 "pet"]⟩,
    ⟨utf16 "panda", utf16 "🐼", utf16 "熊猫", [utf16 "cute", utf16 "china"]⟩,
    ⟨utf16 "monkey", utf16 "🐒", utf16 "猴子", [utf16 "ape", utf16 "banana"]⟩,
    ⟨utf16 "unicorn", utf16 "🦄", utf16 "独角兽", [utf16 "magic", utf16 "fantasy"]⟩,
    ⟨utf16 "butterfly", utf16 "🦋", utf16 "蝴蝶", [utf16 "insect", utf16 "pretty"]⟩ ]


def emojiData5 : List EmojiItem :=
  [ ⟨utf16 "bee", utf16 "🐝", utf16 "蜜蜂", [utf16 "honey", utf16 "buzz"]⟩,
    ⟨utf16 "bug", utf16 "🐛", utf16 "虫子", [utf16 "insect", utf16 "caterpillar"]⟩,
    ⟨utf16 "apple", utf16 "🍎", utf16 "苹果", [utf16 "fruit", utf16 "red"]⟩,
    ⟨utf16 "pizza", utf16 "🍕", utf16 "披萨", [utf16 "food", utf16 "italian"]⟩,
    ⟨utf16 "hamburger", utf16 "🍔", utf16 "汉堡", [utf16 "food", utf16 "burger"]⟩,
    ⟨utf16 "coffee", utf16 "☕", utf16 "咖啡", [utf16 "drink", utf16 "cafe"]⟩,
    ⟨utf16 "beer", utf16 "🍺", utf16 "啤酒", [utf16 "drink", utf16 "alcohol"]⟩,
    ⟨utf16 "cake", utf16 "🎂", utf16 "蛋糕", [utf16 "birthday", utf16 "dessert"]⟩,
    ⟨utf16 "cookie", utf16 "🍪", utf16 "饼干", [utf16 "snack", utf16 "sweet"]⟩,
    ⟨utf16 "tada", utf16 "🎉", utf16 "庆祝", [utf16 "party", utf16 "celebration", utf16 "congrats"]⟩,
    ⟨utf16 "balloon", utf16 "🎈", utf16 "气球", [utf16 "party", utf16 "birthday"]⟩,
    ⟨utf16 "gift", utf16 "🎁", utf16 "礼物", [utf16 "present", utf16 "birthday"]⟩,
    ⟨utf16 "trophy", utf16 "🏆", utf16 "奖杯", [utf16 "winner", utf16 "award"]⟩,
    ⟨utf16 "medal", utf16 "🏅", utf16 "奖牌", [utf16 "winner", utf16 "gold"]⟩,
    ⟨utf16 "rocket", utf16 "🚀", utf16 "火箭", [utf16 "launch", utf16 "space", utf16 "fast"]⟩,
    ⟨utf16 "airplane", utf16 "✈️", utf16 "飞机", [utf16 "travel", utf16 "flight"]⟩,
    ⟨utf16 "car", utf16 "🚗", utf16 "汽车", [utf16 "drive", utf16 "vehicle"]⟩,
    ⟨utf16 "bike", utf16 "🚲", utf16 "自行车", [utf16 "bicycle", utf16 "cycling"]⟩,
    ⟨utf16 "phone", utf16 "📱", utf16 "手机", [utf16 "mobile", utf16 "call"]⟩,
    ⟨utf16 "computer", utf16 "💻", utf16 "电脑", [utf16 "laptop", utf16 "work"]⟩ ]


def emojiData6 : List EmojiItem :=
  [ ⟨utf16 "keyboard", utf16 "⌨️", utf16 "键盘", [utf16 "type", utf16 "coding"]⟩,
    ⟨utf16 "bulb", utf16 "💡", utf16 "灯泡", [utf16 "idea", utf16 "light"]⟩,
    ⟨utf16 "book", utf16 "📖", utf16 "书", [utf16 "read", utf16 "study"]⟩,
    ⟨utf16 "bookmark", utf16 "🔖", utf16 "书签", [utf16 "save", utf16 "mark"]⟩,
    ⟨utf16 "memo", utf16 "📝", utf16 "备忘录", [utf16 "note", utf16 "write"]⟩,
    ⟨utf16 "pencil", utf16 "✏️", utf16 "铅笔", [utf16 "write", utf16 "edit"]⟩,
    ⟨utf16 "pin", utf16 "📌", utf16 "图钉", [utf16 "location", utf16 "mark"]⟩,
    ⟨utf16 "link", utf16 "🔗", utf16 "链接", [utf16 "url", utf16 "connect"]⟩,
    ⟨utf16 "lock", utf16 "🔒", utf16 "锁", [utf16 "secure", utf16 "private"]⟩,
    ⟨utf16 "key", utf16 "🔑", utf16 "钥匙", [utf16 "unlock", utf16 "password"]⟩,
    ⟨utf16 "bell", utf16 "🔔", utf16 "铃铛", [utf16 "notification", utf16 "alert"]⟩,
    ⟨utf16 "check", utf16 "✅", utf16 "完成", [utf16 "done", utf16 "yes", utf16 "success"]⟩,
    ⟨utf16 "x", utf16 "❌", utf16 "错误", [utf16 "no", utf16 "wrong", utf16 "fail"]⟩,
    ⟨utf16 "question", utf16 "❓", utf16 "问号", [utf16 "what", utf16 "help"]⟩,
    ⟨utf16 "exclamation", utf16 "❗", utf16 "感叹号", [utf16 "important", utf16 "alert"]⟩,
    ⟨utf16 "warning", utf16 "⚠️", utf16 "警告", [utf16 "alert", utf16 "caution"]⟩,
    ⟨utf16 "info", utf16 "ℹ️", utf16 "信息", [utf16 "information", utf16 "help"]⟩,
    ⟨utf16 "plus", utf16 "➕", utf16 "加号", [utf16 "add", utf16 "new"]⟩,
    ⟨utf16 "minus", utf16 "➖", utf16 "减号", [utf16 "remove", utf16 "delete"]⟩,
    ⟨utf16 "arrow_up", utf16 "⬆️", utf16 "向上箭头", [utf16 "up", utf16 "increase"]⟩ ]


def emojiData7 : List EmojiItem :=
  [ ⟨utf16 "arrow_down", utf16 "⬇️", utf16 "向下箭头", [utf16 "down", utf16 "decrease"]⟩,
    ⟨utf16 "arrow_left", utf16 "⬅️", utf16 "向左箭头", [utf16 "left", utf16 "back"]⟩,
    ⟨utf16 "arrow_right", utf16 "➡️", utf16 "向右箭头", [utf16 "right", utf16 "next"]⟩,
    ⟨utf16 "recycle", utf16 "♻️", utf16 "回收", [utf16 "environment", utf16 "green"]⟩,
    ⟨utf16 "infinity", utf16 "♾️", utf16 "无限", [utf16 "forever", utf16 "loop"]⟩,
    ⟨utf16 "100", utf16 "💯", utf16 "100分", [utf16 "perfect", utf16 "score"]⟩ ]


/-- The full emoji table of `data/emoji.ts`, in declaration order. -/
def emojiData : List EmojiItem :=
  emojiData1 ++ emojiData2 ++ emojiData3 ++ emojiData4 ++ emojiData5 ++ emojiData6 ++ emojiData7


/-- `filterEmoji(query)`: case-insensitive substring match of the query
against short code, description, or any keyword, preserving table order. -/
def filterEmoji (query : JSStr) : List EmojiItem :=
  let lowerQuery := query.map jsToLower
  emojiData.filter fun item =>
    jsIncludes item.shortcode lowerQuery ||
    jsIncludes item.description lowerQuery ||
    item.keywords.any fun k => jsIncludes k lowerQuery

/-! ## The autocomplete state machine (`useAutocomplete.ts`)

The hook's state lives in one `AutocompleteState` record; the handlers
`handleInput`, `selectItem`, `handleKeyDown` and `close` are translated as
pure transition functions.  The DOM-bound caret geometry
(`getCaretCoordinates` plus `getBoundingClientRect`) is passed in as the
already-measured `Position` argument of `handleInput`; the host's textarea
is represented by its two observable inputs, the buffer text and the
cursor offset (`selectionStart`).  Buffer mutation (`onChange`) and the
deferred cursor placement are returned as an optional
`(new content, new cursor offset)` pair instead of being performed. -/

structure AutocompleteItem where
  id : JSStr
  label : JSStr
  value : JSStr
  description : JSStr
  type : TriggerType
deriving DecidableEq, Repr

structure Position where
  top : Int
  left : Int
deriving DecidableEq, Repr

/-- `AutocompleteState`; `selectedIndex` is an `Int` because the JS
number can become `-1` (`items.length - 1` on an empty list). -/
structure AutocompleteState where
  isOpen : Bool
  items : List AutocompleteItem
  selectedIndex : Int
  position : Position
  triggerType : Option TriggerType
  startPosition : Nat
  query : JSStr
deriving DecidableEq, Repr

def maxItems : Nat := 8

def initialState : AutocompleteState :=
  ⟨false, [], 0, ⟨0, 0⟩, none, 0, []⟩

/-- JS `array[i]` for a possibly negative index. -/
def itemAt (items : List AutocompleteItem) (i : Int) : Option AutocompleteItem :=
  if 0 ≤ i then items[i.toNat]? else none

/-- JS `String.prototype.indexOf` (first occurrence, `-1` when absent). -/
def jsIndexOfSub (s sub : JSStr) : Int :=
  match s.tails.findIdx? (fun t => sub.isPrefixOf t) with
  | some i => (i : Int)
  | none => -1

/-- `getItems(type, query, documentContent)`: the suggestion resolver,
capped at `maxItems` entries. -/
def getItems (type : TriggerType) (query : JSStr) (documentContent : JSStr) :
    List AutocompleteItem :=
  let items : List AutocompleteItem :=
    match type with
    | .markdown =>
      (getMarkdownSyntaxByTrigger (if query == [] then utf16 "#" else query)).map
        fun item => ⟨utf16 "md-" ++ item.label, item.label, item.value,
                     item.description, .markdown⟩
    | .code =>
      (codeSyntaxItems.filter fun item =>
        jsIncludes (item.label.map jsToLower) (query.map jsToLower)).map
        fun item => ⟨utf16 "code-" ++ item.label, item.label, item.value,
                     item.description, .code⟩
    | .emoji =>
      (filterEmoji query).map fun item =>
        ⟨utf16 "emoji-" ++ item.shortcode,
         item.emoji ++ utf16 " :" ++ item.shortcode ++ utf16 ":",
         item.emoji, item.description, .emoji⟩
    | .link =>
      let headings := extractHeadings documentContent
      let hitems := headings.map fun h =>
        ⟨utf16 "link-" ++ h.anchor,
         List.replicate h.level 0x23 ++ 0x20 :: h.text,
         0x5B :: h.text ++ utf16 "](#" ++ h.anchor ++ [0x29],
         utf16 "跳转到: " ++ h.text, .link⟩
      if hitems == [] then
        [ ⟨utf16 "link-template", utf16 "[链接文本](url)", utf16 "[]()",
           utf16 "插入链接", .link⟩,
          ⟨utf16 "image-template", utf16 "![图片描述](url)", utf16 "![]()",
           utf16 "插入图片", .link⟩ ]
      else hitems
  items.take maxItems

/-- `handleInput`: run the trigger detector on the buffer and cursor; on a
match with a non-empty candidate list open the popup (selection reset to
0, position from the caret geometry), otherwise close it if it was open. -/
def handleInput (caretPos : Position) (text : JSStr) (cursorPosition : Nat)
    (content : JSStr) (s : AutocompleteState) : AutocompleteState :=
  match checkTrigger text cursorPosition with
  | some result =>
    let items := getItems result.trigger.type result.query content
    if 0 < items.length then
      ⟨true, items, 0, caretPos, some result.trigger.type,
       result.startPosition, result.query⟩
    else if s.isOpen then initialState else s
  | none => if s.isOpen then initialState else s

/-- Result of `selectItem`: the state afterwards, and the buffer edit
(`onChange` argument together with the requested cursor offset), `none`
when `onChange` was not invoked. -/
structure SelectResult where
  state : AutocompleteState
  edit : Option (JSStr × Int)
deriving DecidableEq, Repr

/-- `selectItem(item)`: splice the candidate's insertion text into the
buffer according to the stored trigger kind, close the popup, and request
the new cursor offset; with no stored trigger kind (`default` branch) it
is a silent no-op. -/
def selectItem (item : AutocompleteItem) (content : JSStr) (cursorPosition : Nat)
    (s : AutocompleteState) : SelectResult :=
  match s.triggerType with
  | some .emoji =>
    let beforeTrigger := content.take s.startPosition
    let afterCursor := content.drop cursorPosition
    ⟨initialState, some (beforeTrigger ++ item.value ++ afterCursor,
      ((beforeTrigger.length + item.value.length : Nat) : Int))⟩
  | some .code =>
    let beforeTrigger := content.take s.startPosition
    let afterCursor := content.drop cursorPosition
    let codeBlockMiddle := jsIndexOfSub item.value [0x0A, 0x0A]
    ⟨initialState, some (beforeTrigger ++ item.value ++ afterCursor,
      (beforeTrigger.length : Int) + codeBlockMiddle + 1)⟩
  | some .markdown =>
    let beforeTrigger := content.take s.startPosition
    let afterCursor := content.drop cursorPosition
    ⟨initialState, some (beforeTrigger ++ item.value ++ afterCursor,
      ((beforeTrigger.length + item.value.length : Nat) : Int))⟩
  | some .link =>
    let beforeTrigger := content.take s.startPosition
    let afterCursor := content.drop cursorPosition
    let bracketIndex := jsIndexOfSub item.value [0x5B] + 1
    ⟨initialState, some (beforeTrigger ++ item.value ++ afterCursor,
      (beforeTrigger.length : Int) + bracketIndex)⟩
  | none => ⟨s, none⟩

/-- The keys `handleKeyDown` distinguishes. -/
inductive Key
  | arrowUp | arrowDown | enter | tab | escape | other
deriving DecidableEq, Repr

/-- Result of `handleKeyDown`: state afterwards, whether the event was
intercepted (the boolean the hook returns), and the buffer edit of an
acceptance, if any. -/
structure KeyResult where
  state : AutocompleteState
  handled : Bool
  edit : Option (JSStr × Int)
deriving DecidableEq, Repr

/-- `handleKeyDown(e)`: no-op while closed; circular selection movement on
the arrow keys; acceptance of the selected candidate on Enter/Tab; close
on Escape; every other key is left to the host. -/
def handleKeyDown (key : Key) (content : JSStr) (cursorPosition : Nat)
    (s : AutocompleteState) : KeyResult :=
  if s.isOpen = false then ⟨s, false, none⟩
  else
    match key with
    | .arrowUp =>
      ⟨{ s with selectedIndex :=
           if 0 < s.selectedIndex then s.selectedIndex - 1
           else (s.items.length : Int) - 1 }, true, none⟩
    | .arrowDown =>
      ⟨{ s with selectedIndex :=
           if s.selectedIndex < (s.items.length : Int) - 1 then s.selectedIndex + 1
           else 0 }, true, none⟩
    | .enter | .tab =>
      match itemAt s.items s.selectedIndex with
      | some item =>
        let r := selectItem item content cursorPosition s
        ⟨r.state, true, r.edit⟩
      | none => ⟨s, true, none⟩
    | .escape => ⟨initialState, true, none⟩
    | .other => ⟨s, false, none⟩

/-- The states the hook can be in: the initial state, closed under the
four entry points (text-change evaluation, key handling, accepting a
candidate via a pointer click on the popup, and `close`). -/
inductive Reachable : AutocompleteState → Prop
  | init : Reachable initialState
  | input {s} (caretPos text cursorPosition content) (h : Reachable s) :
      Reachable (handleInput caretPos text cursorPosition content s)
  | key {s} (k content cursorPosition) (h : Reachable s) :
      Reachable (handleKeyDown k content cursorPosition s).state
  | select {s} (item content cursorPosition) (h : Reachable s) :
      Reachable (selectItem item content cursorPosition s).state
  | close {s} (h : Reachable s) : Reachable initialState

/-- The state reached from the closed state after typing `#` on an empty
buffer: the popup opens with the six heading templates.  Used as the
concrete open state of several witnesses. -/
def sampleOpenState : AutocompleteState :=
  handleInput ⟨0, 0⟩ (utf16 "#") 1 (utf16 "#") initialState

/-- The state transition of one ArrowDown key press. -/
def arrowDownState (content : JSStr) (cursorPosition : Nat)
    (s : AutocompleteState) : AutocompleteState :=
  (handleKeyDown .arrowDown content cursorPosition s).state

/-- The state transition of one ArrowUp key press. -/
def arrowUpState (content : JSStr) (cursorPosition : Nat)
    (s : AutocompleteState) : AutocompleteState :=
  (handleKeyDown .arrowUp content cursorPosition s).state

/-- The popup-state invariant of the spec: while the popup is open the
candidate list is non-empty and the selection is a valid index into it. -/
def popupInvariant (s : AutocompleteState) : Prop :=
  s.isOpen = true →
    s.items ≠ [] ∧ 0 ≤ s.selectedIndex ∧ s.selectedIndex < (s.items.length : Int)

/-! ## Claim theorems -/

/-- C1: the anchors `extractHeadings` generates are NOT pairwise distinct
and NOT always non-empty: for the document `"# Intro\n## Intro"` both
headings receive the same anchor `intro` (no `-{index}` suffix is
appended), and for the all-symbol heading `"# !!!"` the anchor is the
empty string (there is no fallback to the sequential index). -/
theorem extractHeadings_anchor_collision_and_empty :
    ((extractHeadings (utf16 "# Intro\n## Intro")).map fun h => h.anchor)
        = [utf16 "intro", utf16 "intro"] ∧
    ((extractHeadings (utf16 "# !!!")).map fun h => h.anchor) = [[]] := by
  decide

/-- C2: the anchor the autocomplete heading extractor computes differs
from the id the HTML renderer generates for the same heading: for
`"# Intro"` the extractor yields `intro` while `generateHeadingId`
yields `intro-0`. -/
theorem extractHeadings_anchor_ne_generateHeadingId :
    ((extractHeadings (utf16 "# Intro")).map fun h => h.anchor) = [utf16 "intro"] ∧
    generateHeadingId (utf16 "Intro") 0 = utf16 "intro-0" ∧
    utf16 "intro" ≠ utf16 "intro-0" := by
  decide

/-- C4: on the buffer `"-"` with the cursor after the dash, detection
yields the `-` markdown trigger with empty query, but the resolver then
looks up `getMarkdownSyntaxByTrigger('' || '#')` and returns the six
HEADING templates — not the unordered/task-list variants that the `-`
entry of the syntax table holds (shown for comparison); the `>` trigger
misbehaves the same way. -/
theorem dash_trigger_yields_heading_items :
    checkTrigger (utf16 "-") 1 = some ⟨⟨0x2D, .markdown, .lineStart, none⟩, [], 0⟩ ∧
    ((handleInput ⟨0, 0⟩ (utf16 "-") 1 (utf16 "-") initialState).items.map fun i => i.value)
        = [utf16 "# ", utf16 "## ", utf16 "### ", utf16 "#### ",
           utf16 "##### ", utf16 "###### "] ∧
    ((getMarkdownSyntaxByTrigger (utf16 "-")).map fun s => s.value)
        = [utf16 "- ", utf16 "- [ ] ", utf16 "- [x] "] ∧
    ((handleInput ⟨0, 0⟩ (utf16 ">") 1 (utf16 ">") initialState).items.map fun i => i.value)
        = [utf16 "# ", utf16 "## ", utf16 "### ", utf16 "#### ",
           utf16 "##### ", utf16 "###### "] ∧
    ((getMarkdownSyntaxByTrigger (utf16 ">")).map fun s => s.value)
        = [utf16 "> ", utf16 ">> "] := by
  decide

/-- C5 counterexample: accepting the first candidate of the emoji match
on `"I like :fire"` (cursor 12, colon at 7) does NOT request cursor
offset 8: the edit the state machine emits is not
`("I like 🔥", 8)`. -/
theorem emoji_accept_cursor_is_not_eight :
    ¬((handleKeyDown .enter (utf16 "I like :fire") 12
        (handleInput ⟨0, 0⟩ (utf16 "I like :fire") 12 (utf16 "I like :fire")
          initialState)).edit
      = some (utf16 "I like 🔥", 8)) := by
  decide

/-- C5 amended: the accepted emoji splice yields the buffer
`"I like 🔥"` and requests cursor offset 9 = 7 + 2, because the 🔥 glyph
occupies two UTF-16 code units; offset 9 is the position immediately
after the glyph (offset 8 would fall between its surrogate halves). -/
theorem emoji_accept_buffer_and_cursor :
    (handleInput ⟨0, 0⟩ (utf16 "I like :fire") 12 (utf16 "I like :fire")
        initialState).startPosition = 7 ∧
    (handleKeyDown .enter (utf16 "I like :fire") 12
        (handleInput ⟨0, 0⟩ (utf16 "I like :fire") 12 (utf16 "I like :fire")
          initialState)).edit
      = some (utf16 "I like 🔥", 9) ∧
    (utf16 "I like ").length = 7 ∧ (utf16 "🔥").length = 2 ∧
    (utf16 "I like 🔥").length = 9 := by
  decide

/-- C9: pressing Escape while the popup is open resets the state to the
canonical closed state (`open = false`, no candidates, selection 0) and
emits no buffer edit: the buffer-mutation callback is not invoked. -/
theorem escape_closes_without_edit (s : AutocompleteState) (content : JSStr)
    (cursorPosition : Nat) (h : s.isOpen = true) :
    handleKeyDown .escape content cursorPosition s = ⟨initialState, true, none⟩ ∧
    initialState.isOpen = false ∧ initialState.items = [] ∧
    initialState.selectedIndex = 0 := by
  refine ⟨?_, rfl, rfl, rfl⟩
  simp [handleKeyDown, h]

/-- C9 witness: Escape on the concrete open state reached by typing `#`. -/
theorem escape_closes_without_edit_witness :
    handleKeyDown .escape [] 0 sampleOpenState = ⟨initialState, true, none⟩ ∧
    initialState.isOpen = false ∧ initialState.items = [] ∧
    initialState.selectedIndex = 0 :=
  escape_closes_without_edit sampleOpenState [] 0 (by decide)

/-- C10: invoking `selectItem` when no trigger context is stored (the
`triggerType` of the initial/reset closed state is `null`) is a silent
no-op for every candidate: the state is unchanged and no buffer edit is
emitted. -/
theorem selectItem_noop_without_trigger (item : AutocompleteItem)
    (content : JSStr) (cursorPosition : Nat) (s : AutocompleteState)
    (h : s.triggerType = none) :
    selectItem item content cursorPosition s = ⟨s, none⟩ := by
  simp [selectItem, h]

/-- C10 witness: `selectItem` on the initial state with a concrete
candidate. -/
theorem selectItem_noop_without_trigger_witness :
    selectItem ⟨utf16 "md-# 一级标题", utf16 "# 一级标题", utf16 "# ",
        utf16 "最大的标题", .markdown⟩ [] 0 initialState
      = ⟨initialState, none⟩ :=
  selectItem_noop_without_trigger _ [] 0 initialState (by decide)

theorem initialState_invariant : popupInvariant initialState := by
  intro h
  simp [initialState] at h

/-- `selectItem` either resets the state to `initialState` (after a
successful splice) or leaves it unchanged (no stored trigger kind). -/
theorem selectItem_state_cases (item : AutocompleteItem) (content : JSStr)
    (cursorPosition : Nat) (s : AutocompleteState) :
    (selectItem item content cursorPosition s).state = initialState ∨
    (selectItem item content cursorPosition s).state = s := by
  unfold selectItem
  cases h : s.triggerType with
  | none => right; rfl
  | some t => cases t <;> left <;> rfl

theorem handleInput_invariant (caretPos : Position) (text : JSStr)
    (cursorPosition : Nat) (content : JSStr) (s : AutocompleteState)
    (hs : popupInvariant s) :
    popupInvariant (handleInput caretPos text cursorPosition content s) := by
  unfold handleInput
  cases h : checkTrigger text cursorPosition with
  | none =>
    dsimp only
    split
    · exact initialState_invariant
    · exact hs
  | some r =>
    dsimp only
    split
    · rename_i hlen
      intro _
      exact ⟨List.length_pos.mp hlen, le_refl 0, Int.natCast_pos.mpr hlen⟩
    · split
      · exact initialState_invariant
      · exact hs

theorem handleKeyDown_invariant (k : Key) (content : JSStr)
    (cursorPosition : Nat) (s : AutocompleteState) (hs : popupInvariant s) :
    popupInvariant (handleKeyDown k content cursorPosition s).state := by
  by_cases ho : s.isOpen = false
  · unfold handleKeyDown
    rw [if_pos ho]
    exact hs
  · have hopen : s.isOpen = true := by
      cases hb : s.isOpen
      · exact absurd hb ho
      · rfl
    obtain ⟨hne, h0, hlt⟩ := hs hopen
    have hn : 0 < s.items.length := List.length_pos.mpr hne
    unfold handleKeyDown
    rw [if_neg ho]
    cases k with
    | arrowUp =>
      intro _
      refine ⟨hne, ?_, ?_⟩ <;> dsimp only <;> split <;> omega
    | arrowDown =>
      intro _
      refine ⟨hne, ?_, ?_⟩ <;> dsimp only <;> split <;> omega
    | enter =>
      cases hi : itemAt s.items s.selectedIndex with
      | none => exact fun _ => ⟨hne, h0, hlt⟩
      | some item =>
        dsimp only
        rcases selectItem_state_cases item content cursorPosition s with he | he <;> rw [he]
        · exact initialState_invariant
        · exact fun _ => ⟨hne, h0, hlt⟩
    | tab =>
      cases hi : itemAt s.items s.selectedIndex with
      | none => exact fun _ => ⟨hne, h0, hlt⟩
      | some item =>
        dsimp only
        rcases selectItem_state_cases item content cursorPosition s with he | he <;> rw [he]
        · exact initialState_invariant
        · exact fun _ => ⟨hne, h0, hlt⟩
    | escape => exact initialState_invariant
    | other => exact fun _ => ⟨hne, h0, hlt⟩

theorem reachable_invariant (s : AutocompleteState) (h : Reachable s) :
    popupInvariant s := by
  induction h with
  | init => exact initialState_invariant
  | input caretPos text cursorPosition content _ ih =>
    exact handleInput_invariant caretPos text cursorPosition content _ ih
  | key k content cursorPosition _ ih =>
    exact handleKeyDown_invariant k content cursorPosition _ ih
  | select item content cursorPosition _ ih =>
    rcases selectItem_state_cases item content cursorPosition _ with he | he <;> rw [he]
    · exact initialState_invariant
    · exact ih
  | close _ _ => exact initialState_invariant

/-- C7: in every state reachable through the state machine's transitions,
an open popup has a non-empty candidate list and a selection index that
is a valid index into it; moreover, whenever the resolver yields an empty
candidate list, the text-change transition ends in a closed state. -/
theorem popup_open_invariant :
    (∀ s, Reachable s → s.isOpen = true →
      s.items ≠ [] ∧ 0 ≤ s.selectedIndex ∧
        s.selectedIndex < (s.items.length : Int)) ∧
    (∀ (caretPos : Position) (text : JSStr) (cursorPosition : Nat)
      (content : JSStr) (s : AutocompleteState),
      (∀ r, checkTrigger text cursorPosition = some r →
        getItems r.trigger.type r.query content = []) →
      (handleInput caretPos text cursorPosition content s).isOpen = false) := by
  constructor
  · exact fun s h => reachable_invariant s h
  · intro caretPos text cursorPosition content s hempty
    unfold handleInput
    cases h : checkTrigger text cursorPosition with
    | none =>
      dsimp only
      split
      · rfl
      · rename_i hopen
        simp only [Bool.not_eq_true] at hopen
        exact hopen
    | some r =>
      dsimp only
      rw [hempty r h]
      simp only [List.length_nil, lt_irrefl, if_false]
      split
      · rfl
      · rename_i hopen
        simp only [Bool.not_eq_true] at hopen
        exact hopen

/-- C7 witness: the state reached by typing `#` is open and satisfies the
invariant. -/
theorem popup_open_invariant_witness :
    sampleOpenState.items ≠ [] ∧ 0 ≤ sampleOpenState.selectedIndex ∧
      sampleOpenState.selectedIndex < (sampleOpenState.items.length : Int) :=
  popup_open_invariant.1 sampleOpenState
    (Reachable.input ⟨0, 0⟩ (utf16 "#") 1 (utf16 "#") Reachable.init) (by decide)

/-- While the popup is open, both arrow keys leave `edit` empty: the
buffer-mutation callback is not invoked. -/
theorem int_add_emod_self (a b : Int) : (a + b) % b = a % b := by
  have h : a + b = a + b * 1 := by ring
  rw [h, Int.add_mul_emod_self_left]

theorem arrowKey_edit_none (content : JSStr) (cursorPosition : Nat)
    (t : AutocompleteState) (h : t.isOpen = true) :
    (handleKeyDown .arrowDown content cursorPosition t).edit = none ∧
    (handleKeyDown .arrowUp content cursorPosition t).edit = none := by
  constructor <;> (unfold handleKeyDown; rw [if_neg (by simp [h])])

theorem arrowDown_step (content : JSStr) (cursorPosition : Nat)
    (t : AutocompleteState) (h : t.isOpen = true) :
    arrowDownState content cursorPosition t =
      { t with selectedIndex :=
          if t.selectedIndex < (t.items.length : Int) - 1 then t.selectedIndex + 1
          else 0 } := by
  unfold arrowDownState handleKeyDown
  rw [if_neg (by simp [h])]

theorem arrowUp_step (content : JSStr) (cursorPosition : Nat)
    (t : AutocompleteState) (h : t.isOpen = true) :
    arrowUpState content cursorPosition t =
      { t with selectedIndex :=
          if 0 < t.selectedIndex then t.selectedIndex - 1
          else (t.items.length : Int) - 1 } := by
  unfold arrowUpState handleKeyDown
  rw [if_neg (by simp [h])]

theorem arrowDown_iter (content : JSStr) (cursorPosition : Nat)
    (s : AutocompleteState) (hopen : s.isOpen = true)
    (h0 : 0 ≤ s.selectedIndex) (hlt : s.selectedIndex < (s.items.length : Int)) :
    ∀ k : Nat,
      ((arrowDownState content cursorPosition)^[k] s).isOpen = true ∧
      ((arrowDownState content cursorPosition)^[k] s).items = s.items ∧
      ((arrowDownState content cursorPosition)^[k] s).selectedIndex
        = (s.selectedIndex + (k : Int)) % (s.items.length : Int) := by
  have hn : (0 : Int) < (s.items.length : Int) := lt_of_le_of_lt h0 hlt
  intro k
  induction k with
  | zero =>
    refine ⟨hopen, rfl, ?_⟩
    simp only [Function.iterate_zero, id_eq, Nat.cast_zero, add_zero]
    exact (Int.emod_eq_of_lt h0 hlt).symm
  | succ k ih =>
    obtain ⟨iho, ihi, ihs⟩ := ih
    rw [Function.iterate_succ_apply', arrowDown_step content cursorPosition _ iho]
    refine ⟨iho, ihi, ?_⟩
    dsimp only
    rw [ihs, ihi]
    have ha0 : 0 ≤ (s.selectedIndex + (k : Int)) % (s.items.length : Int) :=
      Int.emod_nonneg _ (ne_of_gt hn)
    have halt : (s.selectedIndex + (k : Int)) % (s.items.length : Int)
        < (s.items.length : Int) := Int.emod_lt_of_pos _ hn
    have hrw : (s.selectedIndex + ((k + 1 : Nat) : Int)) % (s.items.length : Int)
        = ((s.selectedIndex + (k : Int)) % (s.items.length : Int) + 1)
            % (s.items.length : Int) := by
      rw [Int.emod_add_emod]
      congr 1
      push_cast
      ring
    rw [hrw]
    split
    · rename_i hc
      exact (Int.emod_eq_of_lt (by omega) (by omega)).symm
    · rename_i hc
      have he : (s.selectedIndex + (k : Int)) % (s.items.length : Int)
          = (s.items.length : Int) - 1 := by omega
      rw [he, sub_add_cancel, Int.emod_self]

theorem arrowUp_iter (content : JSStr) (cursorPosition : Nat)
    (s : AutocompleteState) (hopen : s.isOpen = true)
    (h0 : 0 ≤ s.selectedIndex) (hlt : s.selectedIndex < (s.items.length : Int)) :
    ∀ k : Nat,
      ((arrowUpState content cursorPosition)^[k] s).isOpen = true ∧
      ((arrowUpState content cursorPosition)^[k] s).items = s.items ∧
      ((arrowUpState content cursorPosition)^[k] s).selectedIndex
        = (s.selectedIndex + (k : Int) * ((s.items.length : Int) - 1))
            % (s.items.length : Int) := by
  have hn : (0 : Int) < (s.items.length : Int) := lt_of_le_of_lt h0 hlt
  intro k
  induction k with
  | zero =>
    refine ⟨hopen, rfl, ?_⟩
    simp only [Function.iterate_zero, id_eq, Nat.cast_zero, zero_mul, add_zero]
    exact (Int.emod_eq_of_lt h0 hlt).symm
  | succ k ih =>
    obtain ⟨iho, ihi, ihs⟩ := ih
    rw [Function.iterate_succ_apply', arrowUp_step content cursorPosition _ iho]
    refine ⟨iho, ihi, ?_⟩
    dsimp only
    rw [ihs, ihi]
    have ha0 : 0 ≤ (s.selectedIndex + (k : Int) * ((s.items.length : Int) - 1))
        % (s.items.length : Int) := Int.emod_nonneg _ (ne_of_gt hn)
    have halt : (s.selectedIndex + (k : Int) * ((s.items.length : Int) - 1))
        % (s.items.length : Int) < (s.items.length : Int) :=
      Int.emod_lt_of_pos _ hn
    have hrw : (s.selectedIndex + ((k + 1 : Nat) : Int) * ((s.items.length : Int) - 1))
        % (s.items.length : Int)
        = ((s.selectedIndex + (k : Int) * ((s.items.length : Int) - 1))
            % (s.items.length : Int) + ((s.items.length : Int) - 1))
            % (s.items.length : Int) := by
      rw [Int.emod_add_emod]
      congr 1
      push_cast
      ring
    rw [hrw]
    split
    · rename_i hc
      have he : (s.selectedIndex + (k : Int) * ((s.items.length : Int) - 1))
            % (s.items.length : Int) + ((s.items.length : Int) - 1)
          = ((s.selectedIndex + (k : Int) * ((s.items.length : Int) - 1))
            % (s.items.length : Int) - 1) + (s.items.length : Int) := by ring
      rw [he, int_add_emod_self]
      exact (Int.emod_eq_of_lt (by omega) (by omega)).symm
    · rename_i hc
      have he : (s.selectedIndex + (k : Int) * ((s.items.length : Int) - 1))
          % (s.items.length : Int) = 0 := by omega
      rw [he, zero_add]
      exact (Int.emod_eq_of_lt (by omega) (by omega)).symm

/-- C8: from any open state whose selection is a valid index, pressing
ArrowDown `candidates.length` times returns the selection to its original
value, keeps the popup open, leaves the candidate list unchanged and
never emits a buffer edit; symmetrically for ArrowUp. -/
theorem arrow_navigation_wraps (content : JSStr) (cursorPosition : Nat)
    (s : AutocompleteState) (hopen : s.isOpen = true)
    (h0 : 0 ≤ s.selectedIndex) (hlt : s.selectedIndex < (s.items.length : Int)) :
    ((arrowDownState content cursorPosition)^[s.items.length] s).selectedIndex
        = s.selectedIndex ∧
    ((arrowDownState content cursorPosition)^[s.items.length] s).isOpen = true ∧
    ((arrowDownState content cursorPosition)^[s.items.length] s).items = s.items ∧
    ((arrowUpState content cursorPosition)^[s.items.length] s).selectedIndex
        = s.selectedIndex ∧
    ((arrowUpState content cursorPosition)^[s.items.length] s).isOpen = true ∧
    ((arrowUpState content cursorPosition)^[s.items.length] s).items = s.items ∧
    (∀ k, (handleKeyDown .arrowDown content cursorPosition
        ((arrowDownState content cursorPosition)^[k] s)).edit = none) ∧
    (∀ k, (handleKeyDown .arrowUp content cursorPosition
        ((arrowUpState content cursorPosition)^[k] s)).edit = none) := by
  have hd := arrowDown_iter content cursorPosition s hopen h0 hlt
  have hu := arrowUp_iter content cursorPosition s hopen h0 hlt
  obtain ⟨do1, di1, ds1⟩ := hd s.items.length
  obtain ⟨uo1, ui1, us1⟩ := hu s.items.length
  refine ⟨?_, do1, di1, ?_, uo1, ui1, ?_, ?_⟩
  · rw [ds1, int_add_emod_self]
    exact Int.emod_eq_of_lt h0 hlt
  · rw [us1, Int.add_mul_emod_self_left]
    exact Int.emod_eq_of_lt h0 hlt
  · exact fun k =>
      (arrowKey_edit_none content cursorPosition _ (hd k).1).1
  · exact fun k =>
      (arrowKey_edit_none content cursorPosition _ (hu k).1).2

/-- C8 witness: six ArrowDown (resp. ArrowUp) presses on the six-item
open state reached by typing `#` return the selection to 0. -/
theorem arrow_navigation_wraps_witness :
    ((arrowDownState [] 0)^[sampleOpenState.items.length] sampleOpenState).selectedIndex
        = sampleOpenState.selectedIndex ∧
    ((arrowUpState [] 0)^[sampleOpenState.items.length] sampleOpenState).selectedIndex
        = sampleOpenState.selectedIndex := by
  have h := arrow_navigation_wraps [] 0 sampleOpenState (by decide) (by decide) (by decide)
  exact ⟨h.1, h.2.2.2.1⟩

theorem lastIdxOf_lt_length (c : Nat) :
    ∀ (l : JSStr) (i : Nat), lastIdxOf c l = some i → i < l.length := by
  intro l
  induction l with
  | nil => intro i h; simp [lastIdxOf] at h
  | cons a t ih =>
    intro i h
    unfold lastIdxOf at h
    cases hm : lastIdxOf c t with
    | some j =>
      rw [hm] at h
      injection h with h
      subst h
      simp only [List.length_cons]
      exact Nat.succ_lt_succ (ih j hm)
    | none =>
      rw [hm] at h
      by_cases hac : (a == c) = true
      · rw [if_pos hac] at h
        injection h with h
        subst h
        simp
      · rw [if_neg hac] at h
        exact absurd h (by simp)

theorem lastIdxOf_none_not_mem (c : Nat) :
    ∀ (l : JSStr), lastIdxOf c l = none → ∀ x ∈ l, x ≠ c := by
  intro l
  induction l with
  | nil => intro _ x hx; simp at hx
  | cons a t ih =>
    intro h x hx
    unfold lastIdxOf at h
    cases hm : lastIdxOf c t with
    | some j => rw [hm] at h; exact absurd h (by simp)
    | none =>
      rw [hm] at h
      by_cases hac : (a == c) = true
      · rw [if_pos hac] at h
        exact absurd h (by simp)
      · rw [if_neg hac] at h
        rcases List.mem_cons.mp hx with rfl | hxt
        · simpa using hac
        · exact ih hm x hxt

theorem lastIdxOf_not_mem_after (c : Nat) :
    ∀ (l : JSStr) (i : Nat), lastIdxOf c l = some i →
      ∀ x ∈ l.drop (i + 1), x ≠ c := by
  intro l
  induction l with
  | nil => intro i h; simp [lastIdxOf] at h
  | cons a t ih =>
    intro i h
    unfold lastIdxOf at h
    cases hm : lastIdxOf c t with
    | some j =>
      rw [hm] at h
      injection h with h
      subst h
      intro x hx
      exact ih j hm x (by simpa using hx)
    | none =>
      rw [hm] at h
      by_cases hac : (a == c) = true
      · rw [if_pos hac] at h
        injection h with h
        subst h
        intro x hx
        exact lastIdxOf_none_not_mem c t hm x (by simpa using hx)
      · rw [if_neg hac] at h
        exact absurd h (by simp)

theorem lineStartOf_le (text : JSStr) (pos : Nat) :
    lineStartOf text pos ≤ (text.take pos).length := by
  unfold lineStartOf
  cases h : lastIdxOf 0x0A (text.take pos) with
  | none => exact Nat.zero_le _
  | some i => exact lastIdxOf_lt_length 0x0A _ i h

/-- The current line up to the cursor never contains a line feed. -/
theorem nl_not_mem_lineSoFar (text : JSStr) (pos : Nat) :
    ∀ x ∈ lineSoFar text pos, x ≠ 0x0A := by
  unfold lineSoFar lineStartOf
  cases h : lastIdxOf 0x0A (text.take pos) with
  | none =>
    intro x hx
    exact lastIdxOf_none_not_mem 0x0A _ h x (by simpa using hx)
  | some i =>
    intro x hx
    exact lastIdxOf_not_mem_after 0x0A _ i h x hx

theorem emojiCheck_some (ls : Nat) (before : JSStr) (r : TriggerResult)
    (h : emojiCheck ls before = some r) :
    ∃ ci, lastIdxOf 0x3A before = some ci ∧
      r.trigger = ⟨0x3A, .emoji, .wordStart, some 1⟩ ∧
      r.query = before.drop (ci + 1) ∧ r.startPosition = ls + ci := by
  unfold emojiCheck at h
  cases hm : lastIdxOf 0x3A before with
  | none => rw [hm] at h; exact absurd h (by simp)
  | some ci =>
    rw [hm] at h
    dsimp only at h
    split at h
    · rw [show triggers.find? (fun t => t.type == .emoji)
          = some ⟨0x3A, .emoji, .wordStart, some 1⟩ from rfl] at h
      injection h with h
      subst h
      exact ⟨ci, rfl, rfl, rfl, rfl⟩
    · exact absurd h (by simp)

theorem emojiCheck_none_iff (ls : Nat) (before : JSStr) :
    emojiCheck ls before = none ↔ emojiEligible before = false := by
  unfold emojiCheck emojiEligible
  cases hm : lastIdxOf 0x3A before with
  | none => simp
  | some ci =>
    dsimp only
    rw [show triggers.find? (fun t => t.type == .emoji)
        = some ⟨0x3A, .emoji, .wordStart, some 1⟩ from rfl]
    cases hc : (!(before.drop (ci + 1)).any isSpaceCU &&
        decide (1 ≤ (before.drop (ci + 1)).length)) <;> simp [hc]

theorem codeCheck_some (ls : Nat) (before : JSStr) (r : TriggerResult)
    (h : codeCheck ls before = some r) :
    [0x60, 0x60, 0x60].isPrefixOf before ∧
      r.trigger = ⟨0x60, .code, .lineStart, none⟩ ∧
      r.query = before.drop 3 ∧ r.startPosition = ls := by
  unfold codeCheck at h
  split at h
  · rename_i hp
    rw [show triggers.find? (fun t => t.type == .code)
        = some ⟨0x60, .code, .lineStart, none⟩ from rfl] at h
    dsimp only at h
    split at h
    · exact absurd h (by simp)
    · injection h with h
      subst h
      exact ⟨hp, rfl, rfl, rfl⟩
  · exact absurd h (by simp)

theorem codeCheck_of_fenceStart (ls : Nat) (before : JSStr)
    (hp : [0x60, 0x60, 0x60].isPrefixOf before)
    (hnl : 0x0A ∉ before.drop 3) :
    codeCheck ls before
      = some ⟨⟨0x60, .code, .lineStart, none⟩, before.drop 3, ls⟩ := by
  unfold codeCheck
  rw [if_pos hp,
      show triggers.find? (fun t => t.type == .code)
        = some ⟨0x60, .code, .lineStart, none⟩ from rfl]
  dsimp only
  rw [if_neg (by simpa using hnl)]

theorem lineStartLoop_some (ls : Nat) (before : JSStr) :
    ∀ (ts : List Trigger) (r : TriggerResult),
      lineStartLoop ls before ts = some r →
        r.startPosition = ls ∧ r.trigger ∈ ts ∧
        [r.trigger.char].isPrefixOf before ∧
        (r.trigger.char = 0x23 ∨ (before = [r.trigger.char] ∧ r.query = [])) := by
  intro ts
  induction ts with
  | nil => intro r h; simp [lineStartLoop] at h
  | cons t ts ih =>
    intro r h
    unfold lineStartLoop at h
    split at h
    · rename_i h1
      have hpre : [t.char].isPrefixOf before = true := by
        rw [Bool.and_eq_true] at h1
        exact h1.2
      split at h
      · rename_i h2
        split at h
        · injection h with h
          subst h
          exact ⟨rfl, List.mem_cons_self t ts, hpre,
            Or.inl (show t.char = 0x23 from eq_of_beq h2)⟩
        · have := ih r h
          exact ⟨this.1, List.mem_cons_of_mem t this.2.1, this.2.2⟩
      · split at h
        · rename_i h3
          injection h with h
          subst h
          exact ⟨rfl, List.mem_cons_self t ts, hpre,
            Or.inr ⟨show before = [t.char] from eq_of_beq h3, rfl⟩⟩
        · have := ih r h
          exact ⟨this.1, List.mem_cons_of_mem t this.2.1, this.2.2⟩
    · have := ih r h
      exact ⟨this.1, List.mem_cons_of_mem t this.2.1, this.2.2⟩

theorem linkCheck_some (pos : Nat) (before : JSStr) (r : TriggerResult)
    (h : linkCheck pos before = some r) :
    r.startPosition = pos - 1 ∧ r.trigger.type = .link := by
  unfold linkCheck at h
  cases hl : before.getLast? with
  | none => rw [hl] at h; exact absurd h (by simp)
  | some lc =>
    rw [hl] at h
    dsimp only at h
    cases hf : triggers.find? (fun t => t.type == .link && t.char == lc) with
    | none => rw [hf] at h; exact absurd h (by simp)
    | some t =>
      rw [hf] at h
      have htype : t.type = .link := by
        have hp := List.find?_some hf
        rw [Bool.and_eq_true] at hp
        exact eq_of_beq hp.1
      dsimp only at h
      split at h
      · injection h with h
        subst h
        exact ⟨rfl, htype⟩
      · split at h
        · injection h with h
          subst h
          exact ⟨rfl, htype⟩
        · exact absurd h (by simp)

/-- The replacement start of every trigger match is at most the cursor
offset. -/
theorem checkTrigger_startPosition_le (text : JSStr) (pos : Nat)
    (r : TriggerResult) (h : checkTrigger text pos = some r) :
    r.startPosition ≤ pos := by
  have hL : (text.take pos).length ≤ pos := by
    simp [List.length_take]
  have hls := lineStartOf_le text pos
  unfold checkTrigger at h
  by_cases hp : pos = 0
  · rw [if_pos hp] at h; exact absurd h (by simp)
  · rw [if_neg hp] at h
    dsimp only at h
    cases he : emojiCheck (lineStartOf text pos) (lineSoFar text pos) with
    | some r1 =>
      rw [he] at h
      simp only [Option.orElse] at h
      injection h with h
      subst h
      obtain ⟨ci, hci, _, _, hstart⟩ := emojiCheck_some _ _ _ he
      have hcilt := lastIdxOf_lt_length 0x3A _ ci hci
      have hlen : (lineSoFar text pos).length
          = (text.take pos).length - lineStartOf text pos := by
        unfold lineSoFar
        simp [List.length_drop]
      omega
    | none =>
      rw [he] at h
      simp only [Option.orElse] at h
      cases hc : codeCheck (lineStartOf text pos) (lineSoFar text pos) with
      | some r1 =>
        rw [hc] at h
        simp only [Option.orElse] at h
        injection h with h
        subst h
        have := (codeCheck_some _ _ _ hc).2.2.2
        omega
      | none =>
        rw [hc] at h
        simp only [Option.orElse] at h
        cases hll : lineStartLoop (lineStartOf text pos) (lineSoFar text pos) triggers with
        | some r1 =>
          rw [hll] at h
          simp only [Option.orElse] at h
          injection h with h
          subst h
          have := (lineStartLoop_some _ _ _ _ hll).1
          omega
        | none =>
          rw [hll] at h
          simp only [Option.orElse] at h
          have := (linkCheck_some _ _ _ h).1
          omega

/-- C6: for every buffer and every cursor offset within the buffer,
detection returns either no match or a match whose `replacementStart` is
between 0 and the cursor offset, which is itself at most the buffer
length; cursor offset 0 always returns no match. -/
theorem detect_replacementStart_in_bounds (text : JSStr) (pos : Nat)
    (hpos : pos ≤ text.length) :
    (checkTrigger text pos = none ∨
      ∃ r, checkTrigger text pos = some r ∧
        r.startPosition ≤ pos ∧ pos ≤ text.length) ∧
    checkTrigger text 0 = none := by
  refine ⟨?_, rfl⟩
  cases h : checkTrigger text pos with
  | none => exact Or.inl rfl
  | some r =>
    exact Or.inr ⟨r, rfl, checkTrigger_startPosition_le text pos r h, hpos⟩

/-- C6 witness: the bound at the concrete buffer `"#"` with the cursor at
offset 1. -/
theorem detect_replacementStart_in_bounds_witness :
    (checkTrigger (utf16 "#") 1 = none ∨
      ∃ r, checkTrigger (utf16 "#") 1 = some r ∧
        r.startPosition ≤ 1 ∧ 1 ≤ (utf16 "#").length) ∧
    checkTrigger (utf16 "#") 0 = none :=
  detect_replacementStart_in_bounds (utf16 "#") 1 (by decide)

/-- A plain `.orElse` chain form of `checkTrigger` away from cursor 0. -/
theorem checkTrigger_eq_chain (text : JSStr) (pos : Nat) (hpos : pos ≠ 0) :
    checkTrigger text pos =
      ((emojiCheck (lineStartOf text pos) (lineSoFar text pos)).orElse fun _ =>
       (codeCheck (lineStartOf text pos) (lineSoFar text pos)).orElse fun _ =>
       (lineStartLoop (lineStartOf text pos) (lineSoFar text pos) triggers).orElse fun _ =>
       linkCheck pos (lineSoFar text pos)) := by
  unfold checkTrigger
  rw [if_neg hpos]

/-- On a line-so-far consisting of the single backtick, the line-start
loop fires the backtick table entry. -/
theorem lineStartLoop_backtick (ls : Nat) :
    lineStartLoop ls [0x60] triggers
      = some ⟨⟨0x60, .code, .lineStart, none⟩, [], ls⟩ := rfl

/-- When the line so far starts with three backticks and the emoji check
does not fire, detection returns the fenced-code match with the remainder
as query and the line start as replacement start. -/
theorem checkTrigger_code_of_fenceStart (text : JSStr) (pos : Nat) (hpos : pos ≠ 0)
    (hem : emojiEligible (lineSoFar text pos) = false)
    (hp : [0x60, 0x60, 0x60].isPrefixOf (lineSoFar text pos)) :
    checkTrigger text pos = some ⟨⟨0x60, .code, .lineStart, none⟩,
      (lineSoFar text pos).drop 3, lineStartOf text pos⟩ := by
  rw [checkTrigger_eq_chain text pos hpos,
      (emojiCheck_none_iff (lineStartOf text pos) (lineSoFar text pos)).mpr hem]
  have hnl : 0x0A ∉ (lineSoFar text pos).drop 3 := fun hmem =>
    nl_not_mem_lineSoFar text pos 0x0A (List.drop_subset 3 _ hmem) rfl
  rw [codeCheck_of_fenceStart (lineStartOf text pos) (lineSoFar text pos) hp hnl]
  simp [Option.orElse]

/-- C3 counterexample: the claim says detection yields a fenced-code
match only when the line so far starts with three backticks, and in
particular that a line consisting of a single backtick yields no
fenced-code match; in fact `checkTrigger` on the buffer containing one
backtick with the cursor after it returns a match of kind code (the
trigger table's line-start entry for the backtick character). -/
theorem single_backtick_yields_code_match :
    checkTrigger [0x60] 1 = some ⟨⟨0x60, .code, .lineStart, none⟩, [], 0⟩ ∧
    (⟨⟨0x60, .code, .lineStart, none⟩, [], 0⟩ : TriggerResult).trigger.type
      = .code := by
  decide

/-- C3 amended: away from cursor offset 0, detection yields a code-kind
match iff the emoji check does not fire on the line so far and the line
so far either starts with three backticks or is exactly the single
backtick character; in the three-backtick case the match carries the
remainder of the line as query and the line start as replacement
start. -/
theorem code_match_characterization (text : JSStr) (pos : Nat) (hpos : pos ≠ 0) :
    ((∃ r, checkTrigger text pos = some r ∧ r.trigger.type = .code) ↔
      (emojiEligible (lineSoFar text pos) = false ∧
        ([0x60, 0x60, 0x60].isPrefixOf (lineSoFar text pos) ∨
          lineSoFar text pos = [0x60]))) ∧
    (emojiEligible (lineSoFar text pos) = false →
      [0x60, 0x60, 0x60].isPrefixOf (lineSoFar text pos) →
      checkTrigger text pos = some ⟨⟨0x60, .code, .lineStart, none⟩,
        (lineSoFar text pos).drop 3, lineStartOf text pos⟩) := by
  refine ⟨?_, fun hem hp => checkTrigger_code_of_fenceStart text pos hpos hem hp⟩
  constructor
  · rintro ⟨r, hr, htype⟩
    rw [checkTrigger_eq_chain text pos hpos] at hr
    cases he : emojiCheck (lineStartOf text pos) (lineSoFar text pos) with
    | some r1 =>
      rw [he] at hr
      simp only [Option.orElse] at hr
      injection hr with hr
      subst hr
      obtain ⟨ci, _, htr, _, _⟩ := emojiCheck_some _ _ _ he
      rw [htr] at htype
      exact absurd htype (by decide)
    | none =>
      have hem : emojiEligible (lineSoFar text pos) = false :=
        (emojiCheck_none_iff _ _).mp he
      rw [he] at hr
      simp only [Option.orElse] at hr
      cases hc : codeCheck (lineStartOf text pos) (lineSoFar text pos) with
      | some r1 =>
        rw [hc] at hr
        simp only [Option.orElse] at hr
        injection hr with hr
        subst hr
        exact ⟨hem, Or.inl (codeCheck_some _ _ _ hc).1⟩
      | none =>
        rw [hc] at hr
        simp only [Option.orElse] at hr
        cases hll : lineStartLoop (lineStartOf text pos) (lineSoFar text pos) triggers with
        | some r1 =>
          rw [hll] at hr
          simp only [Option.orElse] at hr
          injection hr with hr
          subst hr
          obtain ⟨_, hmem, hpre, hdisj⟩ := lineStartLoop_some _ _ _ _ hll
          have hbt : r1.trigger = ⟨0x60, .code, .lineStart, none⟩ := by
            simp only [triggers, List.mem_cons, List.not_mem_nil, or_false] at hmem
            rcases hmem with h|h|h|h|h|h|h|h|h <;>
              first
                | exact h
                | (rw [h] at htype; exact absurd htype (by decide))
          rcases hdisj with hhash | ⟨hbefore, _⟩
          · rw [hbt] at hhash
            exact absurd hhash (by decide)
          · rw [hbt] at hbefore
            exact ⟨hem, Or.inr hbefore⟩
        | none =>
          rw [hll] at hr
          simp only [Option.orElse] at hr
          have hlink := (linkCheck_some _ _ _ hr).2
          rw [hlink] at htype
          exact absurd htype (by decide)
  · rintro ⟨hem, hp | hb⟩
    · exact ⟨_, checkTrigger_code_of_fenceStart text pos hpos hem hp, rfl⟩
    · rw [checkTrigger_eq_chain text pos hpos,
          (emojiCheck_none_iff (lineStartOf text pos) (lineSoFar text pos)).mpr hem,
          hb]
      have hcode : codeCheck (lineStartOf text pos) [0x60] = none := rfl
      rw [hcode, lineStartLoop_backtick (lineStartOf text pos)]
      exact ⟨⟨⟨0x60, .code, .lineStart, none⟩, [], lineStartOf text pos⟩,
        by simp [Option.orElse], rfl⟩

/-- C3 witness: detection on the buffer "```py" with the cursor at its
end returns the fenced-code match with query "py" and replacement start
at the start of the line. -/
theorem code_match_characterization_witness :
    checkTrigger (utf16 "```py") 5 = some ⟨⟨0x60, .code, .lineStart, none⟩,
      utf16 "py", 0⟩ := by
  have h := (code_match_characterization (utf16 "```py") 5 (by decide)).2
    (by decide) (by decide)
  exact h

end MdAuto
